import Mathlib

/-!
# Verification of the clarify analysis-workflow backend

Shallow embedding of the two-phase analysis workflow of the clarify backend
(`app/graph/nodes.py`, `app/graph/workflow.py`, `app/api/routes/analysis.py`,
`app/services/analysis_service.py`, `app/services/openai_file_service.py`).

Modelling conventions:
- Python dict-shaped state (`AnalysisState`, the `analyses` table row) becomes a
  Lean structure.  Database columns that the initial insert does not write are
  `Option` fields (`none` = never written / NULL).
- Opaque JSON payload items (individual red-flag dicts, key terms, scenarios)
  are modelled as `String`: the workflow code only moves them around.
- Every external effect (OpenAI upload, Responses API call, every single
  supabase query) is passed in as an explicit outcome: `Except String α`
  where `.error e` models the call raising an exception with text `e`, and
  success/failure booleans model writes whose failure the code catches.
- Floats (`domain_confidence`) become `Rat`.
-/

namespace Clarify

/-! ## Data model -/

/-- The four sub-scores of `score_breakdown` / `score_components`. -/
structure ScoreBreakdown where
  red_flag_score : Int
  completeness_score : Int
  clarity_score : Int
  fairness_score : Int
deriving Repr, DecidableEq

def zeroBreakdown : ScoreBreakdown := ⟨0, 0, 0, 0⟩

/-- A `score_breakdown` JSON dict whose keys may be absent (the code always
reads them with `.get(key, 0)`); the empty dict has every field `none`. -/
structure ScoreBreakdownDict where
  red_flag_score : Option Int
  completeness_score : Option Int
  clarity_score : Option Int
  fairness_score : Option Int
deriving Repr, DecidableEq

/-- The empty dict `{}` (initial `score_breakdown` in the workflow state). -/
def emptyDict : ScoreBreakdownDict := ⟨none, none, none, none⟩

/-- A dict carrying all four keys. -/
def fullDict (b : ScoreBreakdown) : ScoreBreakdownDict :=
  ⟨some b.red_flag_score, some b.completeness_score,
   some b.clarity_score, some b.fairness_score⟩

/-- Embeds `persist_node`: `score_breakdown.get("red_flag_score", 0)` and friends. -/
def extractComponents (d : ScoreBreakdownDict) : ScoreBreakdown :=
  ⟨d.red_flag_score.getD 0, d.completeness_score.getD 0,
   d.clarity_score.getD 0, d.fairness_score.getD 0⟩

/-- One entry of `files_metadata` built by `OpenAIFileService.upload_files`. -/
structure FileMeta where
  name : String
  size : Nat
  openai_file_id : String
  status : String
deriving Repr, DecidableEq

/-- One intent option of `DOMAIN_TAXONOMY` (`app/prompts/domain_prompts.py`). -/
structure IntentOption where
  id : String
  label : String
  description : String
deriving Repr, DecidableEq

/-- The in-memory workflow state (`app/graph/state.py`, `AnalysisState`). -/
structure AnalysisState where
  analysis_id : String
  language : String
  openai_file_ids : List String
  files_metadata : List FileMeta
  domain : String
  domain_confidence : Rat
  intent_options : List IntentOption
  selected_intent : String
  custom_intent : Option String
  needs_questions : Bool
  questions : List String
  user_answers : List String
  smart_score : Int
  score_breakdown : ScoreBreakdownDict
  executive_summary : String
  document_summary : String
  key_terms : List String
  main_obligations : List String
  red_flags : List String
  scenarios : List String
  missing_clauses : List String
  positive_notes : List String
  follow_up_questions : List String
  document_names : List String
  current_step : String
  errors : List String
deriving Repr, DecidableEq

/-- The `score_components` column: the initial insert writes the empty JSON
object `{}`; `persist_node` later writes the full four-field object. -/
inductive ScoreComponentsCol where
  | emptyObj : ScoreComponentsCol
  | obj : ScoreBreakdown → ScoreComponentsCol
deriving Repr, DecidableEq

/-- One row of the `analyses` table, restricted to the columns this workflow
touches.  `Option` columns are the ones the initial insert in
`run_analysis_workflow` does not write (NULL until some later update). -/
structure AnalysesRow where
  id : String
  document_names : List String
  domain : String
  domain_confidence : Option Rat
  intent : String
  language : Option String
  overall_score : Int
  score_components : ScoreComponentsCol
  executive_summary : Option String
  document_summary : Option String
  key_terms : List String
  main_obligations : Option (List String)
  red_flags : List String
  scenarios : List String
  missing_clauses : List String
  positive_notes : Option (List String)
  follow_up_questions : Option (List String)
  openai_file_ids : List String
  current_step : String
  error : Option String
deriving Repr, DecidableEq

/-- The record created by the insert at the top of `run_analysis_workflow`. -/
def initialRow (analysis_id language : String) : AnalysesRow :=
  { id := analysis_id
    document_names := []
    domain := ""
    domain_confidence := none
    intent := ""
    language := some language
    overall_score := 0
    score_components := .emptyObj
    executive_summary := none
    document_summary := none
    key_terms := []
    main_obligations := none
    red_flags := []
    scenarios := []
    missing_clauses := []
    positive_notes := none
    follow_up_questions := none
    openai_file_ids := []
    current_step := "uploading"
    error := none }

/-! ## Domain taxonomy (`app/prompts/domain_prompts.py`) -/

def realEstateIntents : List IntentOption :=
  [⟨"buyer", "I am buying this property",
    "You want to purchase and will be the new owner"⟩,
   ⟨"seller", "I am selling this property",
    "You own the property and are transferring ownership"⟩,
   ⟨"reviewing", "I am reviewing for someone else",
    "You are helping someone understand this document"⟩,
   ⟨"other", "Other", "My situation is different"⟩]

def rentalIntents : List IntentOption :=
  [⟨"tenant", "I am the tenant signing this lease",
    "You will be renting and living in the property"⟩,
   ⟨"landlord", "I am the landlord/property owner",
    "You own the property and are leasing it out"⟩,
   ⟨"reviewing", "I am reviewing for someone else",
    "You are helping someone understand this document"⟩,
   ⟨"other", "Other", "My situation is different"⟩]

def employmentIntents : List IntentOption :=
  [⟨"employee", "I am the employee signing this contract",
    "You are being hired and will work for this company"⟩,
   ⟨"employer", "I am the employer/company",
    "You are hiring and this is your contract"⟩,
   ⟨"reviewing", "I am reviewing for someone else",
    "You are helping someone understand this document"⟩,
   ⟨"other", "Other", "My situation is different"⟩]

def financeIntents : List IntentOption :=
  [⟨"borrower", "I am the borrower", "You are taking the loan or credit"⟩,
   ⟨"lender", "I am the lender/institution",
    "You are providing the loan or credit"⟩,
   ⟨"reviewing", "I am reviewing for someone else",
    "You are helping someone understand this document"⟩,
   ⟨"other", "Other", "My situation is different"⟩]

def insuranceIntents : List IntentOption :=
  [⟨"policyholder", "I am buying/reviewing this policy",
    "You are the one being insured"⟩,
   ⟨"beneficiary", "I am a beneficiary",
    "You are named as a beneficiary on this policy"⟩,
   ⟨"reviewing", "I am reviewing for someone else",
    "You are helping someone understand this document"⟩,
   ⟨"other", "Other", "My situation is different"⟩]

def legalAgreementIntents : List IntentOption :=
  [⟨"party_a", "I am signing/agreeing to this",
    "You are one of the parties entering this agreement"⟩,
   ⟨"party_receiving", "I am the party receiving services",
    "You are receiving services or goods under this agreement"⟩,
   ⟨"reviewing", "I am reviewing for someone else",
    "You are helping someone understand this document"⟩,
   ⟨"other", "Other", "My situation is different"⟩]

/-- Embeds `DOMAIN_TAXONOMY[domain]["intents"]`: `none` when `domain` is not a key of
the taxonomy. -/
def taxonomyIntents (domain : String) : Option (List IntentOption) :=
  match domain with
  | "real_estate" => some realEstateIntents
  | "rental" => some rentalIntents
  | "employment" => some employmentIntents
  | "finance" => some financeIntents
  | "insurance" => some insuranceIntents
  | "legal_agreement" => some legalAgreementIntents
  | _ => none

/-! ## OpenAIFileService (`app/services/openai_file_service.py`) -/

/-- A successful single-file upload: the OpenAI file id and the byte size
read from the filesystem. -/
structure UploadedFile where
  id : String
  size : Nat
deriving Repr, DecidableEq

/-- Return value of `OpenAIFileService.upload_files`. -/
structure UploadResult where
  file_ids : List String
  files_metadata : List FileMeta
  success : Bool
  errors : List String
deriving Repr, DecidableEq

/-- The per-file loop of `upload_files`: each input pairs the file path (used
as the display name) with the outcome of uploading that file (`.error e` =
the attempt raised, caught per file and recorded in `errors`).  Returns
`(file_ids, files_metadata, errors)`. -/
def uploadLoop : List (String × Except String UploadedFile) →
    List String × List FileMeta × List String
  | [] => ([], [], [])
  | f :: rest =>
    let r := uploadLoop rest
    match f.2 with
    | .ok u => (u.id :: r.1, ⟨f.1, u.size, u.id, "uploaded"⟩ :: r.2.1, r.2.2)
    | .error e => (r.1, r.2.1, ("Failed to upload " ++ f.1 ++ ": " ++ e) :: r.2.2)

/-- Embeds `OpenAIFileService.upload_files`.  `success` is `len(file_ids) > 0`. -/
def upload_files (clientConfigured : Bool)
    (files : List (String × Except String UploadedFile)) : UploadResult :=
  if !clientConfigured then
    { file_ids := [], files_metadata := [], success := false,
      errors := ["OpenAI client not configured"] }
  else
    let r := uploadLoop files
    { file_ids := r.1, files_metadata := r.2.1,
      success := decide (0 < r.1.length), errors := r.2.2 }

/-! ## AnalysisService (`app/services/analysis_service.py`) -/

/-- Parsed JSON payload of the domain-detection call; keys may be absent
(the node reads them with `.get` defaults). -/
structure DomainPayload where
  domain : Option String
  confidence : Option Rat
  reasoning : Option String
deriving Repr, DecidableEq

/-- The dict `{"domain": d, "confidence": c, "reasoning": r}` the service
builds on every degraded path. -/
def mkDomainResult (d : String) (c : Rat) (r : String) : DomainPayload :=
  ⟨some d, some c, some r⟩

/-- Embeds `AnalysisService.detect_domain_with_files`.  `api` is the outcome of the
Responses API call followed by `_extract_json_payload`: `.error e` = the call
raised `e` (caught by the service), `.ok none` = no parseable JSON payload,
`.ok (some p)` = parsed payload `p`. -/
def detect_domain_with_files (clientConfigured : Bool) (file_ids : List String)
    (api : Except String (Option DomainPayload)) : DomainPayload :=
  if !clientConfigured then mkDomainResult "unsupported" 0 "API not configured"
  else if file_ids.isEmpty then mkDomainResult "unsupported" 0 "No files provided"
  else
    match api with
    | .error e => mkDomainResult "unsupported" 0 e
    | .ok none => mkDomainResult "unsupported" 0 "Failed to parse response"
    | .ok (some p) => p

/-- Parsed JSON payload of the full-analysis call; keys may be absent (the
node reads every one of them with a `.get` default). -/
structure AnalysisPayload where
  smart_score : Option Int
  score_breakdown : Option ScoreBreakdownDict
  executive_summary : Option String
  document_summary : Option String
  key_terms : Option (List String)
  main_obligations : Option (List String)
  red_flags : Option (List String)
  scenarios : Option (List String)
  missing_clauses : Option (List String)
  positive_notes : Option (List String)
  follow_up_questions : Option (List String)
deriving Repr, DecidableEq

/-- Embeds `AnalysisService._empty_analysis`: the degraded all-zero payload whose
executive summary names the failure. -/
def empty_analysis (error_reason : String) : AnalysisPayload :=
  { smart_score := some 0
    score_breakdown := some (fullDict zeroBreakdown)
    executive_summary := some ("Analysis could not be completed. " ++ error_reason)
    document_summary := some ""
    key_terms := some []
    main_obligations := some []
    red_flags := some []
    scenarios := some []
    missing_clauses := some []
    positive_notes := some []
    follow_up_questions := some [] }

/-- Embeds `AnalysisService.analyze_document_with_files` (same call model as
`detect_domain_with_files`). -/
def analyze_document_with_files (clientConfigured : Bool) (file_ids : List String)
    (api : Except String (Option AnalysisPayload)) : AnalysisPayload :=
  if !clientConfigured then empty_analysis "API not configured"
  else if file_ids.isEmpty then empty_analysis "No files provided"
  else
    match api with
    | .error e => empty_analysis e
    | .ok none => empty_analysis "Failed to parse response"
    | .ok (some p) => p

/-! ## Graph nodes (`app/graph/nodes.py`) -/

/-- Embeds `file_upload_node`.  `file_paths` is the list of PDF paths found in the
job's temp directory; `upload` is the outcome of the `upload_files` call
(`.error e` = an exception caught by the node's except clause). -/
def file_upload_node (state : AnalysisState) (file_paths : List String)
    (upload : Except String UploadResult) : AnalysisState :=
  if file_paths.isEmpty then
    { state with
      openai_file_ids := [], files_metadata := [], document_names := [],
      errors := state.errors ++ ["No PDF files found"], current_step := "error" }
  else
    match upload with
    | .ok result =>
      if !result.success then
        { state with
          openai_file_ids := [], files_metadata := [], document_names := [],
          errors := state.errors ++ result.errors, current_step := "error" }
      else
        { state with
          openai_file_ids := result.file_ids,
          files_metadata := result.files_metadata,
          document_names := result.files_metadata.map (fun m => m.name),
          current_step := "domain_detection" }
    | .error e =>
      { state with
        openai_file_ids := [], files_metadata := [], document_names := [],
        errors := state.errors ++ [e], current_step := "error" }

/-- Embeds `domain_detection_node`.  `detect` is the outcome of the
`detect_domain_with_files` call (`.error e` = an exception caught by the
node's except clause; the service itself catches its own failures and
returns a degraded payload). -/
def domain_detection_node (state : AnalysisState)
    (detect : Except String DomainPayload) : AnalysisState :=
  if state.openai_file_ids.isEmpty then
    { state with
      domain := "unsupported", domain_confidence := 0, intent_options := [],
      errors := state.errors ++ ["No files uploaded"],
      current_step := "waiting_for_intent" }
  else
    match detect with
    | .ok result =>
      let domain := result.domain.getD "unsupported"
      let confidence := result.confidence.getD 0
      let intent_options := (taxonomyIntents domain).getD []
      { state with
        domain := domain, domain_confidence := confidence,
        intent_options := intent_options, current_step := "waiting_for_intent" }
    | .error e =>
      { state with
        domain := "unsupported", domain_confidence := 0, intent_options := [],
        errors := state.errors ++ [e], current_step := "waiting_for_intent" }

/-- Embeds `analysis_node`.  `analyze` is the outcome of the
`analyze_document_with_files` call (`.error e` = an exception caught by the
node's except clause). -/
def analysis_node (state : AnalysisState)
    (analyze : Except String AnalysisPayload) : AnalysisState :=
  if state.openai_file_ids.isEmpty then
    { state with
      smart_score := 0, score_breakdown := fullDict zeroBreakdown,
      executive_summary := "Analysis could not be completed - no files available",
      document_summary := "", key_terms := [], main_obligations := [],
      red_flags := [], scenarios := [], missing_clauses := [], positive_notes := [],
      follow_up_questions := [],
      errors := state.errors ++ ["No files available"], current_step := "persist" }
  else
    match analyze with
    | .ok r =>
      { state with
        smart_score := r.smart_score.getD 0,
        score_breakdown := r.score_breakdown.getD (fullDict zeroBreakdown),
        executive_summary := r.executive_summary.getD "",
        document_summary := r.document_summary.getD "",
        key_terms := r.key_terms.getD [],
        main_obligations := r.main_obligations.getD [],
        red_flags := r.red_flags.getD [],
        scenarios := r.scenarios.getD [],
        missing_clauses := r.missing_clauses.getD [],
        positive_notes := r.positive_notes.getD [],
        follow_up_questions := r.follow_up_questions.getD [],
        current_step := "persist" }
    | .error e =>
      { state with
        smart_score := 0, score_breakdown := fullDict zeroBreakdown,
        executive_summary := "Analysis failed: " ++ e,
        document_summary := "", key_terms := [], main_obligations := [],
        red_flags := [], scenarios := [], missing_clauses := [], positive_notes := [],
        follow_up_questions := [],
        errors := state.errors ++ [e], current_step := "persist" }

/-- The single database update issued by `persist_node`: the full result
payload together with `current_step = "complete"` in one statement. -/
def persistUpdate (state : AnalysisState) (row : AnalysesRow) : AnalysesRow :=
  { row with
    domain := state.domain
    domain_confidence := some state.domain_confidence
    intent := state.selected_intent
    overall_score := state.smart_score
    score_components := .obj (extractComponents state.score_breakdown)
    executive_summary := some state.executive_summary
    document_summary := some state.document_summary
    key_terms := state.key_terms
    main_obligations := some state.main_obligations
    red_flags := state.red_flags
    scenarios := state.scenarios
    missing_clauses := state.missing_clauses
    positive_notes := some state.positive_notes
    follow_up_questions := some state.follow_up_questions
    document_names := state.document_names
    openai_file_ids := state.openai_file_ids
    current_step := "complete" }

/-- Embeds `persist_node`.  `db` is the `analyses` row with the job's id (if any);
`supabase` = a store client is configured; `writeOk` = the update succeeds
(a failed write is caught and only logged).  The returned in-memory state
always advances to `complete`. -/
def persist_node (state : AnalysisState) (supabase writeOk : Bool)
    (db : Option AnalysesRow) : Option AnalysesRow × AnalysisState :=
  (if supabase && writeOk then db.map (persistUpdate state) else db,
   { state with current_step := "complete" })

/-! ## Workflow orchestration (`app/graph/workflow.py`) -/

/-- The fresh state built at the top of `run_analysis_workflow`. -/
def initialState (analysis_id language : String) : AnalysisState :=
  { analysis_id := analysis_id
    language := language
    openai_file_ids := []
    files_metadata := []
    domain := ""
    domain_confidence := 0
    intent_options := []
    selected_intent := ""
    custom_intent := none
    needs_questions := false
    questions := []
    user_answers := []
    smart_score := 0
    score_breakdown := emptyDict
    executive_summary := ""
    document_summary := ""
    key_terms := []
    main_obligations := []
    red_flags := []
    scenarios := []
    missing_clauses := []
    positive_notes := []
    follow_up_questions := []
    document_names := []
    current_step := "uploading"
    errors := [] }

/-- Embeds `update_status`: writes only `current_step`; a failed write is caught
and only logged. -/
def update_status (supabase writeOk : Bool) (step : String)
    (db : Option AnalysesRow) : Option AnalysesRow :=
  if supabase && writeOk then db.map (fun r => { r with current_step := step })
  else db

/-- External outcomes consumed by one invocation of phase 1
(`run_analysis_workflow`).  Each call's outcome appears exactly once: the
phase performs no retry. -/
structure Phase1Env where
  /-- a store client is configured (`get_supabase_client() is not None`) -/
  supabase : Bool
  /-- the initial insert succeeds (a failure is caught and only logged) -/
  insertOk : Bool
  /-- PDF paths found in the job's temp directory -/
  file_paths : List String
  /-- outcome of the `upload_files` call as seen by `file_upload_node` -/
  uploadCall : Except String UploadResult
  /-- outcome of the `detect_domain_with_files` call as seen by
  `domain_detection_node` -/
  classifierCall : Except String DomainPayload
  /-- the `update_status` write after the upload node succeeds -/
  statusWrite1Ok : Bool
  /-- the `update_status` write after the domain node succeeds -/
  statusWrite2Ok : Bool
  /-- Flag: `some e` = the unguarded domain-info update raises `e`, which escapes
  to the phase's except clause -/
  domainUpdateFault : Option String
  /-- the `current_step = "error"` write in the except clause succeeds -/
  errorWriteOk : Bool

/-- Embeds `run_analysis_workflow` (phase 1).  Returns the phase outcome
(`.error e` = the phase re-raised `e` to its caller) and the final
`analyses` row for this job. -/
def run_analysis_workflow (analysis_id language : String) (env : Phase1Env)
    (db0 : Option AnalysesRow) : Except String AnalysisState × Option AnalysesRow :=
  -- create the initial record; a failed insert (including a duplicate id) is
  -- caught and only logged
  let db1 := if env.supabase && env.insertOk then
      (match db0 with
       | none => some (initialRow analysis_id language)
       | some r => some r)
    else db0
  let st1 := file_upload_node (initialState analysis_id language)
      env.file_paths env.uploadCall
  let db2 := update_status env.supabase env.statusWrite1Ok st1.current_step db1
  if st1.current_step = "error" then (.ok st1, db2)
  else
    let st2 := domain_detection_node st1 env.classifierCall
    let db3 := update_status env.supabase env.statusWrite2Ok st2.current_step db2
    match (if env.supabase then env.domainUpdateFault else none) with
    | some e =>
      -- except clause: write step = error with the message, then re-raise
      let db4 := if env.supabase && env.errorWriteOk then
          db3.map (fun r => { r with current_step := "error", error := some e })
        else db3
      (.error e, db4)
    | none =>
      let db4 := if env.supabase then
          db3.map (fun r =>
            { r with
              domain := st2.domain,
              domain_confidence := some st2.domain_confidence,
              document_names := st2.document_names,
              openai_file_ids := st2.openai_file_ids })
        else db3
      (.ok st2, db4)

/-- Embeds `reconstruct_state`: read `domain`, `domain_confidence`,
`document_names`, `openai_file_ids`, `language` back from the store;
`readOk = false` models the query raising (caught, leaving the fresh
defaults in place), which is also what happens when the row is absent
(`.single()` raises). -/
def reconstruct_state (analysis_id : String) (supabase readOk : Bool)
    (db : Option AnalysesRow) : AnalysisState :=
  let base := { initialState analysis_id "English" with current_step := "" }
  match (if supabase && readOk then db else none) with
  | some r =>
    { base with
      domain := r.domain
      domain_confidence := r.domain_confidence.getD 0
      document_names := r.document_names
      openai_file_ids := r.openai_file_ids
      language := r.language.getD "English" }
  | none => base

/-- External outcomes consumed by one invocation of phase 2
(`continue_analysis_workflow`).  Each call's outcome appears exactly once:
the phase performs no retry. -/
structure Phase2Env where
  /-- a store client is configured -/
  supabase : Bool
  /-- the reconstruction read succeeds and finds the row (a failure, also
  raised by `.single()` on a missing row, is caught and only logged) -/
  readOk : Bool
  /-- Flag: `some e` = an exception `e` escapes the try body (e.g. client
  construction inside `persist_node`), reaching the phase's except clause -/
  bodyFault : Option String
  /-- outcome of the `analyze_document_with_files` call as seen by
  `analysis_node` -/
  analyzeCall : Except String AnalysisPayload
  /-- the `update_status` write after the analysis node -/
  statusWrite1Ok : Bool
  /-- the result-payload write inside `persist_node` succeeds -/
  persistWriteOk : Bool
  /-- the `update_status` write after the persist node -/
  statusWrite2Ok : Bool
  /-- the `current_step = "error"` write in the except clause succeeds -/
  errorWriteOk : Bool

/-- Embeds `continue_analysis_workflow` (phase 2).  Returns the phase outcome
(`.error e` = the phase re-raised `e`) and the final `analyses` row. -/
def continue_analysis_workflow (analysis_id selected_intent : String)
    (env : Phase2Env) (db0 : Option AnalysesRow) :
    Except String AnalysisState × Option AnalysesRow :=
  let st0 := { reconstruct_state analysis_id env.supabase env.readOk db0 with
    selected_intent := selected_intent }
  match env.bodyFault with
  | some e =>
    -- except clause: write step = error with the message, then re-raise
    let db1 := if env.supabase && env.errorWriteOk then
        db0.map (fun r => { r with current_step := "error", error := some e })
      else db0
    (.error e, db1)
  | none =>
    let st1 := analysis_node st0 env.analyzeCall
    let db1 := update_status env.supabase env.statusWrite1Ok st1.current_step db0
    let p := persist_node st1 env.supabase env.persistWriteOk db1
    let db3 := update_status env.supabase env.statusWrite2Ok p.2.current_step p.1
    (.ok p.2, db3)

/-! ## Analysis routes (`app/api/routes/analysis.py`) -/

/-- Embeds `calculate_progress`: `STEP_PROGRESS.get(step, 0)`.  The dictionary has
no `"uploading"` key (the first live step written by the workflow); it still
carries the legacy step names `"ingestion"`, `"vectorization"`, `"decision"`,
`"question_generation"`, `"waiting_for_answers"`, `"scoring"`,
`"format_response"`. -/
def calculate_progress (step : String) : Nat :=
  match step with
  | "pending" => 0
  | "ingestion" => 20
  | "vectorization" => 40
  | "domain_detection" => 50
  | "decision" => 55
  | "question_generation" => 60
  | "waiting_for_answers" => 65
  | "waiting_for_intent" => 55
  | "analysis" => 75
  | "scoring" => 90
  | "format_response" => 95
  | "persist" => 98
  | "complete" => 100
  | "error" => 0
  | _ => 0

/-- Response model of the status endpoint (`app/models/schemas.py`,
`AnalysisStatus`). -/
structure AnalysisStatus where
  status : String
  current_step : String
  progress : Nat
  error : Option String
deriving Repr, DecidableEq

/-- The columns read by the status endpoint; `current_step` is read with
`.get("current_step", "pending")`, so it may be absent. -/
structure StatusRowData where
  current_step : Option String
  error : Option String
deriving Repr, DecidableEq

/-- The fallback returned when the analysis has not started yet (row absent,
query failed, or no store configured). -/
def pendingStatus : AnalysisStatus :=
  { status := "pending", current_step := "pending", progress := 0, error := none }

/-- Embeds `get_analysis_status`.  `query` is the outcome of the select:
`.error e` = the query raised (which `.single()` also does when no row
exists) and was caught; `.ok none` = falsy `result.data`. -/
def get_analysis_status (supabase : Bool)
    (query : Except String (Option StatusRowData)) : AnalysisStatus :=
  if supabase then
    match query with
    | .ok (some data) =>
      let current_step := data.current_step.getD "pending"
      { status :=
          if current_step = "complete" then "complete"
          else if current_step = "waiting_for_intent" then "awaiting_intent"
          else "processing"
        current_step := current_step
        progress := calculate_progress current_step
        error := data.error }
    | _ => pendingStatus
  else pendingStatus

/-- Request model of the intent-selection endpoint. -/
structure IntentSelectionRequest where
  intent_id : String
  custom_intent : Option String
deriving Repr, DecidableEq

/-- Response model of the intent-selection endpoint. -/
structure IntentSelectionResponse where
  success : Bool
  next_step : String
deriving Repr, DecidableEq

/-- Embeds `select_intent` route handler.  Python truthiness of `custom_intent`
makes `none` and `some ""` both count as missing.  `updateFault = some e`
models the intent/step database update raising `e` (returned as HTTP 500).
On success, returns the response, the updated row, and the intent value
handed to the spawned phase-2 background task; the handler itself writes
`intent` and `current_step = "analysis"` onto the job row. -/
def select_intent (req : IntentSelectionRequest) (supabase : Bool)
    (updateFault : Option String) (db : Option AnalysesRow) :
    Except (Nat × String) (IntentSelectionResponse × Option AnalysesRow × String) :=
  if !supabase then .error (500, "Database not configured")
  else if req.intent_id = "other" && req.custom_intent.getD "" = "" then
    -- source detail text: Custom intent required when selecting Other
    .error (400, "Custom intent required when selecting Other")
  else
    let intent_value :=
      if req.intent_id = "other" then req.custom_intent.getD "" else req.intent_id
    match updateFault with
    | some e => .error (500, e)
    | none =>
      (.ok ({ success := true, next_step := "analysis" },
        db.map (fun r => { r with intent := intent_value, current_step := "analysis" }),
        intent_value))

/-! ## Sample data used by concrete runs -/

/-- The `analyses` row of a job that finished phase 1 (domain detected,
references stored, paused at intent selection). -/
def sampleRowAfterPhase1 : AnalysesRow :=
  { initialRow "job-1" "English" with
    domain := "rental"
    domain_confidence := some (9/10)
    document_names := ["lease.pdf"]
    openai_file_ids := ["file-abc"]
    current_step := "waiting_for_intent" }

/-- A fully-populated analyzer payload. -/
def samplePayload : AnalysisPayload :=
  { smart_score := some 72
    score_breakdown := some (fullDict ⟨70, 80, 75, 65⟩)
    executive_summary := some "Solid lease with a few concerns"
    document_summary := some "A 12 month residential lease"
    key_terms := some ["security deposit"]
    main_obligations := some ["pay rent monthly"]
    red_flags := some ["rf_1"]
    scenarios := some ["sc_1"]
    missing_clauses := some []
    positive_notes := some ["clear term length"]
    follow_up_questions := some ["ask about late fees"] }

/-- A fault-free phase-1 environment: one PDF whose upload succeeds, a
classifier call that raises, every store write succeeding. -/
def p1EnvOk : Phase1Env :=
  { supabase := true
    insertOk := true
    file_paths := ["lease.pdf"]
    uploadCall := .ok (upload_files true [("lease.pdf", .ok ⟨"file-abc", 512⟩)])
    classifierCall := .error "connection reset"
    statusWrite1Ok := true
    statusWrite2Ok := true
    domainUpdateFault := none
    errorWriteOk := true }

/-- A fault-free phase-2 environment with a successful analyzer call. -/
def p2EnvOk : Phase2Env :=
  { supabase := true
    readOk := true
    bodyFault := none
    analyzeCall := .ok samplePayload
    statusWrite1Ok := true
    persistWriteOk := true
    statusWrite2Ok := true
    errorWriteOk := true }

/-! ## Helper lemmas -/

/-- Lemma: `domain_detection_node` always advances to `waiting_for_intent`. -/
theorem domain_detection_node_step (st : AnalysisState)
    (c : Except String DomainPayload) :
    (domain_detection_node st c).current_step = "waiting_for_intent" := by
  unfold domain_detection_node
  split
  · rfl
  · cases c with
    | ok r => rfl
    | error e => rfl

/-- Lemma: `analysis_node` always advances to `persist` and never touches
`domain`, `openai_file_ids`, `selected_intent`, `document_names`. -/
theorem analysis_node_frame (st : AnalysisState)
    (c : Except String AnalysisPayload) :
    (analysis_node st c).current_step = "persist" ∧
    (analysis_node st c).domain = st.domain ∧
    (analysis_node st c).domain_confidence = st.domain_confidence ∧
    (analysis_node st c).openai_file_ids = st.openai_file_ids ∧
    (analysis_node st c).selected_intent = st.selected_intent ∧
    (analysis_node st c).document_names = st.document_names := by
  unfold analysis_node
  split
  · exact ⟨rfl, rfl, rfl, rfl, rfl, rfl⟩
  · cases c with
    | ok r => exact ⟨rfl, rfl, rfl, rfl, rfl, rfl⟩
    | error e => exact ⟨rfl, rfl, rfl, rfl, rfl, rfl⟩

/-- When the upload loop yields no file id, every file failed, so there is
one recorded error per input file. -/
theorem uploadLoop_no_ids_errors (files : List (String × Except String UploadedFile))
    (h : (uploadLoop files).1 = []) :
    (uploadLoop files).2.2.length = files.length := by
  induction files with
  | nil => rfl
  | cons f rest ih =>
    cases hf : f.2 with
    | ok u =>
      exfalso
      rw [uploadLoop] at h
      simp only [hf] at h
      exact List.cons_ne_nil _ _ h
    | error e =>
      rw [uploadLoop] at h ⊢
      simp only [hf] at h ⊢
      simpa using ih h

/-- Lemma: `update_status` on an existing row keeps a row, changing only the step. -/
theorem update_status_some (s w : Bool) (step : String) (r : AnalysesRow) :
    update_status s w step (some r)
      = some (if s && w then { r with current_step := step } else r) := by
  unfold update_status
  split
  · simp [*]
  · simp [*]

/-! ## Claim C5 -/

/-- C5: the claim says the progress mapping sends `uploading` to 20, but
`STEP_PROGRESS` has no `"uploading"` key, so the lookup falls back to its
default 0 — the workflow writes `current_step = "uploading"` while only the
legacy name `"ingestion"` maps to 20.  This theorem evaluates the map at the
failing input `"uploading"` and at every other step named by the claim
(those all match the claim, and `error` maps to 0). -/
theorem progress_map_values :
    calculate_progress "uploading" = 0 ∧
    calculate_progress "ingestion" = 20 ∧
    calculate_progress "domain_detection" = 50 ∧
    calculate_progress "waiting_for_intent" = 55 ∧
    calculate_progress "analysis" = 75 ∧
    calculate_progress "persist" = 98 ∧
    calculate_progress "complete" = 100 ∧
    calculate_progress "error" = 0 :=
  ⟨rfl, rfl, rfl, rfl, rfl, rfl, rfl, rfl⟩

/-! ## Claim C10 -/

/-- C10: for every store configuration and query outcome — the query raising
(which `.single()` does when no row exists), returning falsy data, or
returning a row — the status endpoint returns a well-formed status whose
progress is the fixed mapping of its step and whose status tag is one of the
four documented values; when the record is absent or unreadable it returns
`pending` with progress 0 and no error.  (The Lean function is total, which
embeds never raising.) -/
theorem status_polling_total_and_well_formed :
    ∀ (supabase : Bool) (query : Except String (Option StatusRowData)),
      (get_analysis_status supabase query).progress
          = calculate_progress (get_analysis_status supabase query).current_step ∧
      (get_analysis_status supabase query).status ∈
          (["pending", "processing", "awaiting_intent", "complete"] : List String) ∧
      (∀ e, query = .error e → get_analysis_status supabase query = pendingStatus) ∧
      (query = .ok none → get_analysis_status supabase query = pendingStatus) ∧
      pendingStatus.status = "pending" ∧ pendingStatus.progress = 0 ∧
      pendingStatus.error = none := by
  intro supabase query
  refine ⟨?_, ?_, ?_, ?_, rfl, rfl, rfl⟩
  · cases supabase with
    | false => rfl
    | true =>
      cases query with
      | error e => rfl
      | ok o =>
        cases o with
        | none => rfl
        | some data => rfl
  · cases supabase with
    | false => simp [get_analysis_status, pendingStatus]
    | true =>
      cases query with
      | error e => simp [get_analysis_status, pendingStatus]
      | ok o =>
        cases o with
        | none => simp [get_analysis_status, pendingStatus]
        | some data =>
          by_cases h1 : data.current_step.getD "pending" = "complete"
          · simp [get_analysis_status, h1]
          · by_cases h2 : data.current_step.getD "pending" = "waiting_for_intent"
            · simp [get_analysis_status, h1, h2]
            · simp [get_analysis_status, h1, h2]
  · intro e he
    subst he
    cases supabase <;> rfl
  · intro he
    subst he
    cases supabase <;> rfl

/-- Witness for C10 at concrete inputs: a raising query yields the pending
fallback, and a complete row yields progress 100. -/
theorem status_polling_witness :
    get_analysis_status true (.error "no rows returned") = pendingStatus ∧
    (get_analysis_status true
        (.ok (some ⟨some "complete", none⟩))).progress
      = calculate_progress (get_analysis_status true
          (.ok (some ⟨some "complete", none⟩))).current_step :=
  ⟨(status_polling_total_and_well_formed true (.error "no rows returned")).2.2.1
      "no rows returned" rfl,
   (status_polling_total_and_well_formed true (.ok (some ⟨some "complete", none⟩))).1⟩

/-! ## Claim C8 -/

/-- C8 counterexample: the claim says no component outside the two workflow
phases writes the job record, but the `select_intent` HTTP route handler
itself updates the row, writing `intent` and `current_step = "analysis"`:
here it maps a concrete row paused at `waiting_for_intent` with empty
`intent` to one with `current_step = "analysis"` and `intent = "tenant"`. -/
theorem select_intent_route_mutates_row :
    select_intent ⟨"tenant", none⟩ true none (some sampleRowAfterPhase1)
      = .ok ({ success := true, next_step := "analysis" },
          some { sampleRowAfterPhase1 with
                 intent := "tenant", current_step := "analysis" },
          "tenant") ∧
    sampleRowAfterPhase1.current_step = "waiting_for_intent" ∧
    sampleRowAfterPhase1.intent = "" ∧
    ({ sampleRowAfterPhase1 with
       intent := "tenant", current_step := "analysis" } : AnalysesRow)
      ≠ sampleRowAfterPhase1 := by
  refine ⟨rfl, rfl, rfl, ?_⟩
  intro h
  have := congrArg AnalysesRow.current_step h
  simp [sampleRowAfterPhase1, initialRow] at this

/-- C8 amended: the job record is mutated by the Orchestrator phase
functions and additionally by the `select_intent` route handler, which on
success writes exactly `intent` (the selected value) and
`current_step = "analysis"` before spawning phase 2, leaving every other
field of the row unchanged. -/
theorem select_intent_update_frame (req : IntentSelectionRequest)
    (fault : Option String) (r r' : AnalysesRow)
    (resp : IntentSelectionResponse) (iv : String)
    (h : select_intent req true fault (some r) = .ok (resp, some r', iv)) :
    r'.current_step = "analysis" ∧ r'.intent = iv ∧
    r'.id = r.id ∧ r'.document_names = r.document_names ∧
    r'.domain = r.domain ∧ r'.domain_confidence = r.domain_confidence ∧
    r'.language = r.language ∧ r'.overall_score = r.overall_score ∧
    r'.score_components = r.score_components ∧
    r'.executive_summary = r.executive_summary ∧
    r'.document_summary = r.document_summary ∧ r'.key_terms = r.key_terms ∧
    r'.main_obligations = r.main_obligations ∧ r'.red_flags = r.red_flags ∧
    r'.scenarios = r.scenarios ∧ r'.missing_clauses = r.missing_clauses ∧
    r'.positive_notes = r.positive_notes ∧
    r'.follow_up_questions = r.follow_up_questions ∧
    r'.openai_file_ids = r.openai_file_ids ∧ r'.error = r.error ∧
    resp = { success := true, next_step := "analysis" } := by
  unfold select_intent at h
  simp only [Bool.not_true, Bool.false_eq_true, if_false] at h
  split at h
  · cases h
  · split at h
    · cases h
    · simp only [Option.map_some', Except.ok.injEq, Prod.mk.injEq,
        Option.some.injEq] at h
      obtain ⟨hresp, hr, hiv⟩ := h
      subst hr
      subst hiv
      exact ⟨rfl, rfl, rfl, rfl, rfl, rfl, rfl, rfl, rfl, rfl, rfl, rfl, rfl,
        rfl, rfl, rfl, rfl, rfl, rfl, rfl, hresp.symm⟩

/-- Witness for C8 amended at the concrete row: the successful handler run
leaves `domain` untouched while setting the step. -/
theorem select_intent_update_frame_witness :
    ({ sampleRowAfterPhase1 with
       intent := "tenant", current_step := "analysis" } : AnalysesRow).domain
        = sampleRowAfterPhase1.domain ∧
    ({ sampleRowAfterPhase1 with
       intent := "tenant", current_step := "analysis" } : AnalysesRow).current_step
        = "analysis" := by
  have h := select_intent_update_frame ⟨"tenant", none⟩ none sampleRowAfterPhase1
    { sampleRowAfterPhase1 with intent := "tenant", current_step := "analysis" }
    { success := true, next_step := "analysis" } "tenant" rfl
  exact ⟨h.2.2.2.2.1, h.1⟩

/-! ## Upload lemmas for claim C3 -/

/-- Lemma: `success` is reported exactly when at least one file id was obtained. -/
theorem upload_files_success_iff (cfg : Bool)
    (files : List (String × Except String UploadedFile)) :
    (upload_files cfg files).success = true
      ↔ (upload_files cfg files).file_ids ≠ [] := by
  cases cfg with
  | false => simp [upload_files]
  | true =>
    simp only [upload_files, Bool.not_true, Bool.false_eq_true, if_false]
    simp [List.length_pos]

/-- No file id from a nonempty input means every upload failed, so the
error list is nonempty. -/
theorem upload_files_no_ids_errors (cfg : Bool)
    (files : List (String × Except String UploadedFile))
    (hne : files ≠ []) (h : (upload_files cfg files).file_ids = []) :
    (upload_files cfg files).errors ≠ [] := by
  cases cfg with
  | false => simp [upload_files]
  | true =>
    simp only [upload_files, Bool.not_true, Bool.false_eq_true, if_false] at h ⊢
    have hlen := uploadLoop_no_ids_errors files h
    intro hnil
    rw [hnil] at hlen
    exact hne (List.eq_nil_of_length_eq_zero hlen.symm)

/-- Zero ids can only come from an empty input or total failure; in
particular nonempty ids force a nonempty input. -/
theorem upload_files_ids_nonempty_input (cfg : Bool)
    (files : List (String × Except String UploadedFile))
    (h : (upload_files cfg files).file_ids ≠ []) : files ≠ [] := by
  intro hnil
  subst hnil
  cases cfg with
  | false => exact h rfl
  | true => exact h rfl

/-- When no reference is obtained, `file_upload_node` moves to `error` and
records at least one error message. -/
theorem file_upload_node_error_of_no_ids (st : AnalysisState) (cfg : Bool)
    (files : List (String × Except String UploadedFile))
    (h : (upload_files cfg files).file_ids = []) :
    (file_upload_node st (files.map Prod.fst)
        (.ok (upload_files cfg files))).current_step = "error" ∧
    (file_upload_node st (files.map Prod.fst)
        (.ok (upload_files cfg files))).errors ≠ [] := by
  by_cases hfiles : files = []
  · subst hfiles
    simp [file_upload_node]
  · have hempty : (files.map Prod.fst).isEmpty = false := by
      simp [List.isEmpty_iff, hfiles]
    have hsucc : (upload_files cfg files).success = false := by
      cases hs : (upload_files cfg files).success with
      | false => rfl
      | true => exact absurd h ((upload_files_success_iff cfg files).mp hs)
    have herrs := upload_files_no_ids_errors cfg files hfiles h
    constructor
    · simp [file_upload_node, hempty, hsucc]
    · simp [file_upload_node, hempty, hsucc, herrs]

/-- When at least one reference is obtained, `file_upload_node` advances to
`domain_detection`. -/
theorem file_upload_node_success_of_ids (st : AnalysisState) (cfg : Bool)
    (files : List (String × Except String UploadedFile))
    (h : (upload_files cfg files).file_ids ≠ []) :
    (file_upload_node st (files.map Prod.fst)
        (.ok (upload_files cfg files))).current_step = "domain_detection" := by
  have hfiles := upload_files_ids_nonempty_input cfg files h
  have hempty : (files.map Prod.fst).isEmpty = false := by
    simp [List.isEmpty_iff, hfiles]
  have hsucc : (upload_files cfg files).success = true :=
    (upload_files_success_iff cfg files).mpr h
  simp [file_upload_node, hempty, hsucc]

/-! ## Claim C3 -/

/-- C3: in a fault-free store environment, phase 1 ends at step `error`
exactly when the upload call yields zero document references (empty local
file set, unconfigured client, or every per-file upload failing); in that
case the error list is nonempty, and when at least one reference is
obtained the upload step advances to `domain_detection` instead. -/
theorem phase1_error_iff_zero_references
    (aid lang : String) (env : Phase1Env) (db0 : Option AnalysesRow)
    (cfg : Bool) (files : List (String × Except String UploadedFile))
    (hpaths : env.file_paths = files.map Prod.fst)
    (hupload : env.uploadCall = .ok (upload_files cfg files))
    (hfault : env.domainUpdateFault = none) :
    ∃ st, (run_analysis_workflow aid lang env db0).1 = .ok st ∧
      (st.current_step = "error" ↔ (upload_files cfg files).file_ids = []) ∧
      ((upload_files cfg files).file_ids = [] → st.errors ≠ []) ∧
      ((upload_files cfg files).file_ids ≠ [] →
        (file_upload_node (initialState aid lang) env.file_paths
            env.uploadCall).current_step = "domain_detection") := by
  by_cases hids : (upload_files cfg files).file_ids = []
  · obtain ⟨hstep, herr⟩ :=
      file_upload_node_error_of_no_ids (initialState aid lang) cfg files hids
    rw [← hpaths, ← hupload] at hstep herr
    refine ⟨file_upload_node (initialState aid lang) env.file_paths env.uploadCall,
      ?_, ?_, ?_, ?_⟩
    · simp only [run_analysis_workflow]
      rw [if_pos hstep]
    · simp [hstep, hids]
    · intro _; exact herr
    · intro hx; exact absurd hids hx
  · have hstep :=
      file_upload_node_success_of_ids (initialState aid lang) cfg files hids
    rw [← hpaths, ← hupload] at hstep
    refine ⟨domain_detection_node
        (file_upload_node (initialState aid lang) env.file_paths env.uploadCall)
        env.classifierCall, ?_, ?_, ?_, ?_⟩
    · simp only [run_analysis_workflow]
      rw [if_neg (by rw [hstep]; decide)]
      simp [hfault, ite_self]
    · rw [domain_detection_node_step]
      simp [hids]
    · intro hx; exact absurd hx hids
    · intro _; exact hstep

/-- Witness for C3 at concrete inputs: a job whose single upload fails ends
in `error` with a nonempty error list, and one whose upload succeeds leaves
the upload step at `domain_detection`. -/
theorem phase1_error_iff_zero_references_witness :
    (∃ st, (run_analysis_workflow "job-1" "English"
        { p1EnvOk with
          file_paths := ["lease.pdf"]
          uploadCall := .ok (upload_files true
            [("lease.pdf", .error "413 payload too large")]) }
        (some sampleRowAfterPhase1)).1 = .ok st ∧
      st.current_step = "error" ∧ st.errors ≠ []) ∧
    (∃ st, (run_analysis_workflow "job-1" "English" p1EnvOk
        (some sampleRowAfterPhase1)).1 = .ok st ∧
      st.current_step ≠ "error") := by
  constructor
  · obtain ⟨st, h1, h2, h3, _⟩ := phase1_error_iff_zero_references "job-1" "English"
      { p1EnvOk with
        file_paths := ["lease.pdf"]
        uploadCall := .ok (upload_files true
          [("lease.pdf", .error "413 payload too large")]) }
      (some sampleRowAfterPhase1) true
      [("lease.pdf", .error "413 payload too large")] rfl rfl rfl
    exact ⟨st, h1, h2.mpr (by decide), h3 (by decide)⟩
  · obtain ⟨st, h1, h2, _, _⟩ := phase1_error_iff_zero_references "job-1" "English"
      p1EnvOk (some sampleRowAfterPhase1) true
      [("lease.pdf", .ok ⟨"file-abc", 512⟩)] rfl rfl rfl
    refine ⟨st, h1, ?_⟩
    intro hx
    exact absurd (h2.mp hx) (by decide)

/-! ## Classifier lemmas for claim C1 -/

/-- A failing or unparseable classifier call makes the service return the
degraded `unsupported` payload. -/
theorem detect_call_failure_payload (ids : List String) (e : String)
    (api : Except String (Option DomainPayload))
    (h : api = .error e ∨ api = .ok none) :
    ∃ r, detect_domain_with_files true ids api
        = mkDomainResult "unsupported" 0 r := by
  rcases h with h | h
  · subst h
    by_cases hids : ids.isEmpty
    · exact ⟨"No files provided", by simp [detect_domain_with_files, hids]⟩
    · exact ⟨e, by simp [detect_domain_with_files, hids]⟩
  · subst h
    by_cases hids : ids.isEmpty
    · exact ⟨"No files provided", by simp [detect_domain_with_files, hids]⟩
    · exact ⟨"Failed to parse response", by simp [detect_domain_with_files, hids]⟩

/-- Lemma: `domain_detection_node` on the degraded `unsupported` payload stores
`unsupported` with confidence 0 and advances to `waiting_for_intent`. -/
theorem domain_detection_node_unsupported (st : AnalysisState) (r : String) :
    (domain_detection_node st (.ok (mkDomainResult "unsupported" 0 r))).domain
        = "unsupported" ∧
    (domain_detection_node st
        (.ok (mkDomainResult "unsupported" 0 r))).domain_confidence = 0 := by
  unfold domain_detection_node
  split
  · exact ⟨rfl, rfl⟩
  · exact ⟨rfl, rfl⟩

/-! ## Claim C1 -/

/-- C1: whenever the classifier call fails — the node-level call raises, or
the service call raises, or the model output is unparseable — and the store
does not fault, phase 1 stores `domain = "unsupported"` with confidence 0
and still returns a state at `waiting_for_intent`, never `error`. -/
theorem classifier_failure_reaches_waiting_for_intent
    (aid lang : String) (env : Phase1Env) (db0 : Option AnalysesRow) (e : String)
    (hup : (file_upload_node (initialState aid lang) env.file_paths
        env.uploadCall).current_step ≠ "error")
    (hfault : env.domainUpdateFault = none)
    (hfail : env.classifierCall = .error e ∨
      (∃ ids, env.classifierCall
          = .ok (detect_domain_with_files true ids (.error e))) ∨
      (∃ ids, env.classifierCall
          = .ok (detect_domain_with_files true ids (.ok none)))) :
    ∃ st, (run_analysis_workflow aid lang env db0).1 = .ok st ∧
      st.domain = "unsupported" ∧ st.domain_confidence = 0 ∧
      st.current_step = "waiting_for_intent" := by
  refine ⟨domain_detection_node
      (file_upload_node (initialState aid lang) env.file_paths env.uploadCall)
      env.classifierCall, ?_, ?_, ?_, ?_⟩
  · simp only [run_analysis_workflow]
    rw [if_neg hup]
    simp [hfault, ite_self]
  · rcases hfail with h | ⟨ids, h⟩ | ⟨ids, h⟩
    · rw [h]
      unfold domain_detection_node
      split
      · rfl
      · rfl
    · obtain ⟨r, hr⟩ := detect_call_failure_payload ids e (.error e) (Or.inl rfl)
      rw [h, hr]
      exact (domain_detection_node_unsupported _ r).1
    · obtain ⟨r, hr⟩ := detect_call_failure_payload ids e (.ok none) (Or.inr rfl)
      rw [h, hr]
      exact (domain_detection_node_unsupported _ r).1
  · rcases hfail with h | ⟨ids, h⟩ | ⟨ids, h⟩
    · rw [h]
      unfold domain_detection_node
      split
      · rfl
      · rfl
    · obtain ⟨r, hr⟩ := detect_call_failure_payload ids e (.error e) (Or.inl rfl)
      rw [h, hr]
      exact (domain_detection_node_unsupported _ r).2
    · obtain ⟨r, hr⟩ := detect_call_failure_payload ids e (.ok none) (Or.inr rfl)
      rw [h, hr]
      exact (domain_detection_node_unsupported _ r).2
  · exact domain_detection_node_step _ _

/-- Witness for C1: a classifier call that raises after a successful upload
still yields `unsupported` / 0 / `waiting_for_intent`. -/
theorem classifier_failure_reaches_waiting_for_intent_witness :
    ∃ st, (run_analysis_workflow "job-1" "English" p1EnvOk
        (some sampleRowAfterPhase1)).1 = .ok st ∧
      st.domain = "unsupported" ∧ st.domain_confidence = 0 ∧
      st.current_step = "waiting_for_intent" :=
  classifier_failure_reaches_waiting_for_intent "job-1" "English" p1EnvOk
    (some sampleRowAfterPhase1) "connection reset" (by decide) rfl (Or.inl rfl)

/-! ## Analyzer lemmas for claims C2 and C7 -/

/-- With files present, a raising analyzer call yields the degraded payload
naming the exception. -/
theorem analyze_files_raise (ids : List String) (e : String)
    (hids : ids.isEmpty = false) :
    analyze_document_with_files true ids (.error e) = empty_analysis e := by
  simp [analyze_document_with_files, hids]

/-- With files present, an unparseable analyzer response yields the
degraded payload naming the parse failure. -/
theorem analyze_files_parse_failure (ids : List String)
    (hids : ids.isEmpty = false) :
    analyze_document_with_files true ids (.ok none)
      = empty_analysis "Failed to parse response" := by
  simp [analyze_document_with_files, hids]

/-- Lemma: `analysis_node` on a returned payload, with files present: every result
field is the payload field with its `.get` default. -/
theorem analysis_node_ok_fields (st : AnalysisState) (p : AnalysisPayload)
    (h : st.openai_file_ids.isEmpty = false) :
    (analysis_node st (.ok p)).smart_score = p.smart_score.getD 0 ∧
    (analysis_node st (.ok p)).score_breakdown
        = p.score_breakdown.getD (fullDict zeroBreakdown) ∧
    (analysis_node st (.ok p)).executive_summary
        = p.executive_summary.getD "" := by
  simp [analysis_node, h]

/-- Lemma: `analysis_node` when the analyzer call raises, with files present. -/
theorem analysis_node_error_fields (st : AnalysisState) (e : String)
    (h : st.openai_file_ids.isEmpty = false) :
    (analysis_node st (.error e)).smart_score = 0 ∧
    (analysis_node st (.error e)).score_breakdown = fullDict zeroBreakdown ∧
    (analysis_node st (.error e)).executive_summary
        = "Analysis failed: " ++ e := by
  simp [analysis_node, h]

/-- Lemma: `analysis_node` with no file references: the fixed degraded record,
independent of the analyzer call. -/
theorem analysis_node_no_files (st : AnalysisState)
    (c : Except String AnalysisPayload) (h : st.openai_file_ids.isEmpty = true) :
    analysis_node st c =
      { st with
        smart_score := 0, score_breakdown := fullDict zeroBreakdown,
        executive_summary := "Analysis could not be completed - no files available",
        document_summary := "", key_terms := [], main_obligations := [],
        red_flags := [], scenarios := [], missing_clauses := [],
        positive_notes := [], follow_up_questions := [],
        errors := st.errors ++ ["No files available"],
        current_step := "persist" } := by
  simp [analysis_node, h]

/-- With a configured store and a successful read, the reconstructed state
carries the persisted references, domain and names. -/
theorem reconstruct_state_read (aid : String) (row : AnalysesRow) :
    (reconstruct_state aid true true (some row)).openai_file_ids
        = row.openai_file_ids ∧
    (reconstruct_state aid true true (some row)).domain = row.domain ∧
    (reconstruct_state aid true true (some row)).document_names
        = row.document_names := by
  simp [reconstruct_state]

/-! ## Claim C2 -/

/-- C2: whenever the analyzer call fails — the node-level call raises, the
service call raises, or the model output is unparseable — phase 2 still
returns a state at `complete` whose `smart_score` is 0, whose four
sub-scores are all 0, and whose executive summary ends in the failure
reason. -/
theorem analyzer_failure_degraded_and_complete
    (aid intent e : String) (env : Phase2Env) (row : AnalysesRow)
    (hsup : env.supabase = true) (hread : env.readOk = true)
    (hbody : env.bodyFault = none)
    (hrefs : row.openai_file_ids ≠ [])
    (hfail : env.analyzeCall = .error e ∨
      env.analyzeCall
          = .ok (analyze_document_with_files true row.openai_file_ids (.error e)) ∨
      (env.analyzeCall
          = .ok (analyze_document_with_files true row.openai_file_ids (.ok none)) ∧
        e = "Failed to parse response")) :
    ∃ st, (continue_analysis_workflow aid intent env (some row)).1 = .ok st ∧
      st.current_step = "complete" ∧ st.smart_score = 0 ∧
      st.score_breakdown = fullDict zeroBreakdown ∧
      ∃ p, st.executive_summary = p ++ e := by
  have hrow : row.openai_file_ids.isEmpty = false := by
    simp [List.isEmpty_iff, hrefs]
  have hids : ({ reconstruct_state aid env.supabase env.readOk (some row) with
      selected_intent := intent } : AnalysisState).openai_file_ids.isEmpty = false := by
    rw [hsup, hread]
    simpa [reconstruct_state] using hrow
  refine ⟨{ analysis_node
      { reconstruct_state aid env.supabase env.readOk (some row) with
        selected_intent := intent } env.analyzeCall with
      current_step := "complete" }, ?_, rfl, ?_, ?_, ?_⟩
  · simp only [continue_analysis_workflow, hbody, persist_node]
  · rcases hfail with h | h | ⟨h, he⟩
    · rw [h]
      exact (analysis_node_error_fields _ e hids).1
    · rw [h, analyze_files_raise _ e hrow]
      exact (analysis_node_ok_fields _ _ hids).1
    · rw [h, analyze_files_parse_failure _ hrow]
      exact (analysis_node_ok_fields _ _ hids).1
  · rcases hfail with h | h | ⟨h, he⟩
    · rw [h]
      exact (analysis_node_error_fields _ e hids).2.1
    · rw [h, analyze_files_raise _ e hrow]
      exact (analysis_node_ok_fields _ _ hids).2.1
    · rw [h, analyze_files_parse_failure _ hrow]
      exact (analysis_node_ok_fields _ _ hids).2.1
  · rcases hfail with h | h | ⟨h, he⟩
    · refine ⟨"Analysis failed: ", ?_⟩
      rw [h]
      exact (analysis_node_error_fields _ e hids).2.2
    · refine ⟨"Analysis could not be completed. ", ?_⟩
      rw [h, analyze_files_raise _ e hrow]
      exact (analysis_node_ok_fields _ _ hids).2.2
    · refine ⟨"Analysis could not be completed. ", ?_⟩
      subst he
      rw [h, analyze_files_parse_failure _ hrow]
      exact (analysis_node_ok_fields _ _ hids).2.2

/-- Witness for C2: a raising analyzer call on a phase-1-completed job still
completes with the degraded all-zero result naming the failure. -/
theorem analyzer_failure_degraded_and_complete_witness :
    ∃ st, (continue_analysis_workflow "job-1" "tenant"
        { p2EnvOk with analyzeCall := .error "rate limited" }
        (some sampleRowAfterPhase1)).1 = .ok st ∧
      st.current_step = "complete" ∧ st.smart_score = 0 ∧
      st.score_breakdown = fullDict zeroBreakdown ∧
      ∃ p, st.executive_summary = p ++ "rate limited" :=
  analyzer_failure_degraded_and_complete "job-1" "tenant" "rate limited"
    { p2EnvOk with analyzeCall := .error "rate limited" } sampleRowAfterPhase1
    rfl rfl rfl (by decide) (Or.inl rfl)

/-! ## Claim C7 -/

/-- C7: invoking `continue` before phase 1 has stored any document
reference — the row is absent, or present with an empty reference list —
yields only the fixed degraded empty result (score 0, empty findings) and
is entirely independent of the analyzer: no populated result can arise. -/
theorem continue_before_phase1_unpopulated
    (aid intent : String) (env : Phase2Env) (db0 : Option AnalysesRow)
    (hbody : env.bodyFault = none)
    (h0 : db0 = none ∨ ∃ r, db0 = some r ∧ r.openai_file_ids = []) :
    ∃ st, (continue_analysis_workflow aid intent env db0).1 = .ok st ∧
      st.smart_score = 0 ∧ st.score_breakdown = fullDict zeroBreakdown ∧
      st.red_flags = [] ∧ st.scenarios = [] ∧ st.key_terms = [] ∧
      st.missing_clauses = [] ∧ st.positive_notes = [] ∧
      st.executive_summary
          = "Analysis could not be completed - no files available" ∧
      ∀ c, continue_analysis_workflow aid intent
          { env with analyzeCall := c } db0
        = continue_analysis_workflow aid intent env db0 := by
  have hids : (reconstruct_state aid env.supabase env.readOk db0).openai_file_ids
      = [] := by
    rcases h0 with h | ⟨r, h, hr⟩
    · subst h
      by_cases hc : env.supabase && env.readOk <;>
        simp [reconstruct_state, hc, initialState]
    · subst h
      by_cases hc : env.supabase && env.readOk <;>
        simp [reconstruct_state, hc, hr, initialState]
  have hids' : ({ reconstruct_state aid env.supabase env.readOk db0 with
      selected_intent := intent } : AnalysisState).openai_file_ids.isEmpty
        = true := by
    simp [List.isEmpty_iff, hids]
  refine ⟨{ analysis_node
      { reconstruct_state aid env.supabase env.readOk db0 with
        selected_intent := intent } env.analyzeCall with
      current_step := "complete" }, ?_, ?_, ?_, ?_, ?_, ?_, ?_, ?_, ?_, ?_⟩
  · simp only [continue_analysis_workflow, hbody, persist_node]
  · rw [analysis_node_no_files _ _ hids']
  · rw [analysis_node_no_files _ _ hids']
  · rw [analysis_node_no_files _ _ hids']
  · rw [analysis_node_no_files _ _ hids']
  · rw [analysis_node_no_files _ _ hids']
  · rw [analysis_node_no_files _ _ hids']
  · rw [analysis_node_no_files _ _ hids']
  · rw [analysis_node_no_files _ _ hids']
  · intro c
    simp only [continue_analysis_workflow, hbody]
    rw [analysis_node_no_files _ c hids', analysis_node_no_files _ env.analyzeCall hids']

/-- Witness for C7: continuing a job whose record was never created yields
the degraded empty result for any analyzer outcome. -/
theorem continue_before_phase1_unpopulated_witness :
    ∃ st, (continue_analysis_workflow "job-9" "tenant" p2EnvOk none).1
        = .ok st ∧
      st.smart_score = 0 ∧ st.score_breakdown = fullDict zeroBreakdown ∧
      st.red_flags = [] ∧ st.scenarios = [] ∧ st.key_terms = [] ∧
      st.missing_clauses = [] ∧ st.positive_notes = [] ∧
      st.executive_summary
          = "Analysis could not be completed - no files available" ∧
      ∀ c, continue_analysis_workflow "job-9" "tenant"
          { p2EnvOk with analyzeCall := c } none
        = continue_analysis_workflow "job-9" "tenant" p2EnvOk none :=
  continue_before_phase1_unpopulated "job-9" "tenant" p2EnvOk none rfl
    (Or.inl rfl)

/-! ## Claim C4 -/

/-- C4: an unhandled exception escaping either phase — here the unguarded
store update in phase 1 and an exception escaping the phase-2 try body —
writes `current_step = "error"` together with the exception text onto the
stored job record and re-raises the same exception to the caller (the
result is `.error e`, not a retried success; each external call's outcome
is consumed exactly once by the definitions, so no retry exists). -/
theorem unhandled_exception_writes_error_and_reraises
    (aid lang intent e1 e2 : String) (env1 : Phase1Env) (env2 : Phase2Env)
    (row1 row2 : AnalysesRow)
    (h1sup : env1.supabase = true) (h1err : env1.errorWriteOk = true)
    (h1fault : env1.domainUpdateFault = some e1)
    (h1up : (file_upload_node (initialState aid lang) env1.file_paths
        env1.uploadCall).current_step ≠ "error")
    (h2sup : env2.supabase = true) (h2err : env2.errorWriteOk = true)
    (h2fault : env2.bodyFault = some e2) :
    ((run_analysis_workflow aid lang env1 (some row1)).1 = .error e1 ∧
     ∃ r, (run_analysis_workflow aid lang env1 (some row1)).2 = some r ∧
       r.current_step = "error" ∧ r.error = some e1) ∧
    ((continue_analysis_workflow aid intent env2 (some row2)).1 = .error e2 ∧
     ∃ r, (continue_analysis_workflow aid intent env2 (some row2)).2 = some r ∧
       r.current_step = "error" ∧ r.error = some e2) := by
  constructor
  · obtain ⟨sup, ins, paths, up, cl, s1, s2, df, ew⟩ := env1
    simp only at h1sup h1err h1fault h1up
    subst h1sup
    subst h1err
    subst h1fault
    constructor
    · simp only [run_analysis_workflow]
      rw [if_neg h1up]
      cases ins <;> cases s1 <;> cases s2 <;>
        simp [update_status]
    · simp only [run_analysis_workflow]
      rw [if_neg h1up]
      cases ins <;> cases s1 <;> cases s2 <;>
        simp [update_status]
  · obtain ⟨sup, ro, bf, ac, s1, pw, s2, ew⟩ := env2
    simp only at h2sup h2err h2fault
    subst h2sup
    subst h2err
    subst h2fault
    exact ⟨rfl, ⟨_, rfl, rfl, rfl⟩⟩

/-- Witness for C4: a raising store update in phase 1 and a raising try
body in phase 2, each with the error write succeeding. -/
theorem unhandled_exception_writes_error_and_reraises_witness :
    ((run_analysis_workflow "job-1" "English"
        { p1EnvOk with domainUpdateFault := some "store unreachable" }
        (some sampleRowAfterPhase1)).1 = .error "store unreachable" ∧
     ∃ r, (run_analysis_workflow "job-1" "English"
        { p1EnvOk with domainUpdateFault := some "store unreachable" }
        (some sampleRowAfterPhase1)).2 = some r ∧
       r.current_step = "error" ∧ r.error = some "store unreachable") ∧
    ((continue_analysis_workflow "job-1" "tenant"
        { p2EnvOk with bodyFault := some "client construction failed" }
        (some sampleRowAfterPhase1)).1 = .error "client construction failed" ∧
     ∃ r, (continue_analysis_workflow "job-1" "tenant"
        { p2EnvOk with bodyFault := some "client construction failed" }
        (some sampleRowAfterPhase1)).2 = some r ∧
       r.current_step = "error" ∧ r.error = some "client construction failed") :=
  unhandled_exception_writes_error_and_reraises "job-1" "English" "tenant"
    "store unreachable" "client construction failed"
    { p1EnvOk with domainUpdateFault := some "store unreachable" }
    { p2EnvOk with bodyFault := some "client construction failed" }
    sampleRowAfterPhase1 sampleRowAfterPhase1
    rfl rfl rfl (by decide) rfl rfl rfl

/-! ## Persist-path lemma for claims C6 and C9 -/

/-- When phase 2 runs with a configured store, no try-body fault and a
succeeding persist write, the final stored row is the full persist update:
step `complete` and every result column written from the analysis state. -/
theorem continue_persist_row_fields (aid i : String) (env : Phase2Env)
    (row : AnalysesRow)
    (hs : env.supabase = true) (hb : env.bodyFault = none)
    (hw : env.persistWriteOk = true) :
    ∃ r, (continue_analysis_workflow aid i env (some row)).2 = some r ∧
      r.current_step = "complete" ∧
      r.domain = (analysis_node
        { reconstruct_state aid env.supabase env.readOk (some row) with
          selected_intent := i } env.analyzeCall).domain ∧
      r.openai_file_ids = (analysis_node
        { reconstruct_state aid env.supabase env.readOk (some row) with
          selected_intent := i } env.analyzeCall).openai_file_ids ∧
      r.intent = (analysis_node
        { reconstruct_state aid env.supabase env.readOk (some row) with
          selected_intent := i } env.analyzeCall).selected_intent ∧
      r.overall_score = (analysis_node
        { reconstruct_state aid env.supabase env.readOk (some row) with
          selected_intent := i } env.analyzeCall).smart_score ∧
      r.executive_summary = some (analysis_node
        { reconstruct_state aid env.supabase env.readOk (some row) with
          selected_intent := i } env.analyzeCall).executive_summary ∧
      r.document_summary = some (analysis_node
        { reconstruct_state aid env.supabase env.readOk (some row) with
          selected_intent := i } env.analyzeCall).document_summary ∧
      r.score_components = .obj (extractComponents (analysis_node
        { reconstruct_state aid env.supabase env.readOk (some row) with
          selected_intent := i } env.analyzeCall).score_breakdown) ∧
      r.main_obligations = some (analysis_node
        { reconstruct_state aid env.supabase env.readOk (some row) with
          selected_intent := i } env.analyzeCall).main_obligations ∧
      r.positive_notes = some (analysis_node
        { reconstruct_state aid env.supabase env.readOk (some row) with
          selected_intent := i } env.analyzeCall).positive_notes ∧
      r.follow_up_questions = some (analysis_node
        { reconstruct_state aid env.supabase env.readOk (some row) with
          selected_intent := i } env.analyzeCall).follow_up_questions ∧
      r.domain_confidence = some (analysis_node
        { reconstruct_state aid env.supabase env.readOk (some row) with
          selected_intent := i } env.analyzeCall).domain_confidence := by
  have hstep := (analysis_node_frame
    { reconstruct_state aid env.supabase env.readOk (some row) with
      selected_intent := i } env.analyzeCall).1
  obtain ⟨sup, ro, bf, ac, s1, pw, s2, ew⟩ := env
  simp only at hs hb hw hstep ⊢
  subst hs
  subst hb
  subst hw
  cases s1 <;> cases s2 <;>
    simp only [continue_analysis_workflow, update_status, persist_node,
      Bool.and_self, Bool.and_true, Bool.and_false, Bool.true_and,
      Bool.false_and, if_true, if_false, ite_true, ite_false,
      Option.map_some', hstep] <;>
    exact ⟨_, rfl, rfl, rfl, rfl, rfl, rfl, rfl, rfl, rfl, rfl, rfl, rfl, rfl⟩

/-! ## Claim C6 -/

/-- The row produced by the phase-2 run whose reconstruction read failed:
the persist write overwrites the stored domain and references with the
empty defaults. -/
def clobberedRow : AnalysesRow :=
  { id := "job-1"
    document_names := []
    domain := ""
    domain_confidence := some 0
    intent := "tenant"
    language := some "English"
    overall_score := 0
    score_components := .obj zeroBreakdown
    executive_summary := some "Analysis could not be completed - no files available"
    document_summary := some ""
    key_terms := []
    main_obligations := some []
    red_flags := []
    scenarios := []
    missing_clauses := []
    positive_notes := some []
    follow_up_questions := some []
    openai_file_ids := []
    current_step := "complete"
    error := none }

/-- C6 counterexample: the claim says phase 2 never changes the stored
`domain` or `document_references` values, but when the reconstruction read
fails (its exception is caught and only logged) the persist write
overwrites them with the empty defaults: this run turns a stored
`domain = "rental"`, `openai_file_ids = ["file-abc"]` into `""` and `[]`. -/
theorem phase2_read_failure_clobbers_stored_refs :
    (continue_analysis_workflow "job-1" "tenant"
        { p2EnvOk with readOk := false } (some sampleRowAfterPhase1)).2
      = some clobberedRow ∧
    sampleRowAfterPhase1.domain = "rental" ∧ clobberedRow.domain = "" ∧
    sampleRowAfterPhase1.openai_file_ids = ["file-abc"] ∧
    clobberedRow.openai_file_ids = [] := ⟨rfl, rfl, rfl, rfl, rfl⟩

/-- C6 amended: phase 2 reads only the persisted domain, confidence,
references and names and never re-uploads files; provided its
reconstruction read succeeds, re-invocation with different intents leaves
the stored `domain` and `document_references` values unchanged while each
run overwrites the stored result consistently with the intent it was passed
(if the read fails, the swallowed failure lets persist overwrite domain and
references with empty defaults). -/
theorem phase2_reinvocation_preserves_refs_overwrites_result
    (aid i1 i2 : String) (env1 env2 : Phase2Env) (row : AnalysesRow)
    (h1s : env1.supabase = true) (h1r : env1.readOk = true)
    (h1b : env1.bodyFault = none) (h1w : env1.persistWriteOk = true)
    (h2s : env2.supabase = true) (h2r : env2.readOk = true)
    (h2b : env2.bodyFault = none) (h2w : env2.persistWriteOk = true) :
    ∃ r1 r2,
      (continue_analysis_workflow aid i1 env1 (some row)).2 = some r1 ∧
      (continue_analysis_workflow aid i2 env2 (some r1)).2 = some r2 ∧
      r1.domain = row.domain ∧ r1.openai_file_ids = row.openai_file_ids ∧
      r2.domain = row.domain ∧ r2.openai_file_ids = row.openai_file_ids ∧
      r1.intent = i1 ∧ r2.intent = i2 ∧
      r1.current_step = "complete" ∧ r2.current_step = "complete" ∧
      r1.overall_score = (analysis_node
        { reconstruct_state aid true true (some row) with
          selected_intent := i1 } env1.analyzeCall).smart_score ∧
      r1.executive_summary = some (analysis_node
        { reconstruct_state aid true true (some row) with
          selected_intent := i1 } env1.analyzeCall).executive_summary ∧
      r2.overall_score = (analysis_node
        { reconstruct_state aid true true (some r1) with
          selected_intent := i2 } env2.analyzeCall).smart_score ∧
      r2.executive_summary = some (analysis_node
        { reconstruct_state aid true true (some r1) with
          selected_intent := i2 } env2.analyzeCall).executive_summary := by
  obtain ⟨r1, e1, _, hdom1, hids1, hint1, hov1, hex1, _⟩ :=
    continue_persist_row_fields aid i1 env1 row h1s h1b h1w
  obtain ⟨r2, e2, _, hdom2, hids2, hint2, hov2, hex2, _⟩ :=
    continue_persist_row_fields aid i2 env2 r1 h2s h2b h2w
  have frame1 := analysis_node_frame
    { reconstruct_state aid env1.supabase env1.readOk (some row) with
      selected_intent := i1 } env1.analyzeCall
  have frame2 := analysis_node_frame
    { reconstruct_state aid env2.supabase env2.readOk (some r1) with
      selected_intent := i2 } env2.analyzeCall
  have hdom1' : r1.domain = row.domain := by
    rw [hdom1, frame1.2.1]
    show (reconstruct_state aid env1.supabase env1.readOk (some row)).domain
        = row.domain
    rw [h1s, h1r]
    exact (reconstruct_state_read aid row).2.1
  have hids1' : r1.openai_file_ids = row.openai_file_ids := by
    rw [hids1, frame1.2.2.2.1]
    show (reconstruct_state aid env1.supabase env1.readOk
        (some row)).openai_file_ids = row.openai_file_ids
    rw [h1s, h1r]
    exact (reconstruct_state_read aid row).1
  have hdom2' : r2.domain = row.domain := by
    rw [hdom2, frame2.2.1]
    show (reconstruct_state aid env2.supabase env2.readOk (some r1)).domain
        = row.domain
    rw [h2s, h2r]
    rw [(reconstruct_state_read aid r1).2.1]
    exact hdom1'
  have hids2' : r2.openai_file_ids = row.openai_file_ids := by
    rw [hids2, frame2.2.2.2.1]
    show (reconstruct_state aid env2.supabase env2.readOk
        (some r1)).openai_file_ids = row.openai_file_ids
    rw [h2s, h2r]
    rw [(reconstruct_state_read aid r1).1]
    exact hids1'
  have hint1' : r1.intent = i1 := by
    rw [hint1, frame1.2.2.2.2.1]
  have hint2' : r2.intent = i2 := by
    rw [hint2, frame2.2.2.2.2.1]
  obtain ⟨r1', e1', hst1, _⟩ :=
    continue_persist_row_fields aid i1 env1 row h1s h1b h1w
  obtain ⟨r2', e2', hst2, _⟩ :=
    continue_persist_row_fields aid i2 env2 r1 h2s h2b h2w
  have hr1 : r1' = r1 := by
    have := e1.symm.trans e1'
    exact (Option.some.inj this).symm
  have hr2 : r2' = r2 := by
    have := e2.symm.trans e2'
    exact (Option.some.inj this).symm
  subst hr1
  subst hr2
  refine ⟨r1', r2', e1, e2, hdom1', hids1', hdom2', hids2', hint1', hint2',
    hst1, hst2, ?_, ?_, ?_, ?_⟩
  · rw [hov1, h1s, h1r]
  · rw [hex1, h1s, h1r]
  · rw [hov2, h2s, h2r]
  · rw [hex2, h2s, h2r]

/-- Witness for C6 amended: two good-path invocations with intents
`tenant` then `landlord` on the phase-1-completed row. -/
theorem phase2_reinvocation_witness :
    ∃ r1 r2,
      (continue_analysis_workflow "job-1" "tenant" p2EnvOk
          (some sampleRowAfterPhase1)).2 = some r1 ∧
      (continue_analysis_workflow "job-1" "landlord"
          { p2EnvOk with analyzeCall := .error "timeout" }
          (some r1)).2 = some r2 ∧
      r1.domain = sampleRowAfterPhase1.domain ∧
      r1.openai_file_ids = sampleRowAfterPhase1.openai_file_ids ∧
      r2.domain = sampleRowAfterPhase1.domain ∧
      r2.openai_file_ids = sampleRowAfterPhase1.openai_file_ids ∧
      r1.intent = "tenant" ∧ r2.intent = "landlord" ∧
      r1.current_step = "complete" ∧ r2.current_step = "complete" ∧
      r1.overall_score = (analysis_node
        { reconstruct_state "job-1" true true (some sampleRowAfterPhase1) with
          selected_intent := "tenant" } p2EnvOk.analyzeCall).smart_score ∧
      r1.executive_summary = some (analysis_node
        { reconstruct_state "job-1" true true (some sampleRowAfterPhase1) with
          selected_intent := "tenant" } p2EnvOk.analyzeCall).executive_summary ∧
      r2.overall_score = (analysis_node
        { reconstruct_state "job-1" true true (some r1) with
          selected_intent := "landlord" }
          ({ p2EnvOk with analyzeCall := .error "timeout" }).analyzeCall).smart_score ∧
      r2.executive_summary = some (analysis_node
        { reconstruct_state "job-1" true true (some r1) with
          selected_intent := "landlord" }
          ({ p2EnvOk with analyzeCall := .error "timeout" }).analyzeCall).executive_summary :=
  phase2_reinvocation_preserves_refs_overwrites_result "job-1" "tenant"
    "landlord" p2EnvOk { p2EnvOk with analyzeCall := .error "timeout" }
    sampleRowAfterPhase1 rfl rfl rfl rfl rfl rfl rfl rfl

/-! ## Claim C9 -/

/-- The `analyses` row of a job between intent selection and phase 2
(result columns still unwritten). -/
def sampleRowNoResult : AnalysesRow :=
  { initialRow "job-2" "English" with
    domain := "rental"
    domain_confidence := some (9/10)
    document_names := ["lease.pdf"]
    openai_file_ids := ["file-abc"]
    current_step := "analysis" }

/-- C9 counterexample: the claim says the step is never set to `complete`
without the result having been written, but when the persist write fails
(swallowed inside `persist_node`) the following status-only update still
writes `current_step = "complete"`: this run ends with a stored row at
`complete` whose `score_components` is still the empty object and whose
`executive_summary` was never written. -/
theorem complete_step_without_result_counterexample :
    (continue_analysis_workflow "job-2" "tenant"
        { p2EnvOk with persistWriteOk := false } (some sampleRowNoResult)).2
      = some { sampleRowNoResult with current_step := "complete" } ∧
    ({ sampleRowNoResult with
       current_step := "complete" } : AnalysesRow).current_step = "complete" ∧
    ({ sampleRowNoResult with
       current_step := "complete" } : AnalysesRow).score_components = .emptyObj ∧
    ({ sampleRowNoResult with
       current_step := "complete" } : AnalysesRow).executive_summary = none :=
  ⟨rfl, rfl, rfl, rfl⟩

/-- C9 amended: when the persist write succeeds, `current_step = "complete"`
is written in the same update as the fully-populated (possibly degraded)
result, so the stored complete record carries all result columns; if the
persist write fails, its swallowed failure lets the subsequent status-only
update set `complete` without the result having been written. -/
theorem persisted_complete_carries_full_result
    (aid i : String) (env : Phase2Env) (row : AnalysesRow)
    (hs : env.supabase = true) (hb : env.bodyFault = none)
    (hw : env.persistWriteOk = true) :
    ∃ r, (continue_analysis_workflow aid i env (some row)).2 = some r ∧
      r.current_step = "complete" ∧
      (∃ b, r.score_components = .obj b) ∧
      r.executive_summary ≠ none ∧ r.document_summary ≠ none ∧
      r.main_obligations ≠ none ∧ r.positive_notes ≠ none ∧
      r.follow_up_questions ≠ none ∧ r.domain_confidence ≠ none := by
  obtain ⟨r, he, hstep, _, _, _, _, hex, hdoc, hcomp, hmain, hpos, hfoll,
    hconf⟩ := continue_persist_row_fields aid i env row hs hb hw
  refine ⟨r, he, hstep, ⟨_, hcomp⟩, ?_, ?_, ?_, ?_, ?_, ?_⟩
  · rw [hex]; intro hx; cases hx
  · rw [hdoc]; intro hx; cases hx
  · rw [hmain]; intro hx; cases hx
  · rw [hpos]; intro hx; cases hx
  · rw [hfoll]; intro hx; cases hx
  · rw [hconf]; intro hx; cases hx

/-- Witness for C9 amended: a good-path phase-2 run on the
intent-selected row ends complete with every result column written. -/
theorem persisted_complete_carries_full_result_witness :
    ∃ r, (continue_analysis_workflow "job-2" "tenant" p2EnvOk
        (some sampleRowNoResult)).2 = some r ∧
      r.current_step = "complete" ∧
      (∃ b, r.score_components = .obj b) ∧
      r.executive_summary ≠ none ∧ r.document_summary ≠ none ∧
      r.main_obligations ≠ none ∧ r.positive_notes ≠ none ∧
      r.follow_up_questions ≠ none ∧ r.domain_confidence ≠ none :=
  persisted_complete_carries_full_result "job-2" "tenant" p2EnvOk
    sampleRowNoResult rfl rfl rfl

end Clarify
